import Mathlib

/-!
Verification of the session persistence and retrieval-context pipeline of the
chatbot repository (src/src/services/database_service.py, rag_service.py,
ai_service.py and src/src/models/chat_models.py).

Modelling conventions:
* Timestamps (Python `datetime` values, stored as ISO-format text and compared
  by SQLite as text) are modelled as `Nat`; ISO strings of datetimes are
  order-isomorphic to their instants, so `Nat` with its order is a faithful
  abstraction of both the values and the `ORDER BY timestamp` comparisons.
* Message metadata dictionaries travel through `json.dumps`/`json.loads`
  unchanged, so the serialized form is modelled as the opaque payload itself.
* SQLite `LIKE` is modelled by an executable matcher `likeM` implementing the
  documented semantics: `%` matches any sequence, `_` any single character,
  other characters match ASCII-case-insensitively.
* Python string slicing and `len` act on code points; strings are modelled as
  `String` (a list of characters) with `strTake` for slices.
-/

/-- ASCII lower-casing, as applied by SQLite `LIKE` (case folding is
ASCII-only) and by the ASCII fragment of Python `str.lower`. -/
def asciiLower (c : Char) : Char :=
  if 'A' ≤ c ∧ c ≤ 'Z' then Char.ofNat (c.toNat + 32) else c

/-- Python `str.lower`, restricted to its ASCII behaviour. -/
def pyLower (s : String) : String :=
  String.mk (s.data.map asciiLower)

/-- Python slice `s[:n]` (by code points). -/
def strTake (s : String) (n : Nat) : String :=
  String.mk (s.data.take n)

/-- Whitespace characters stripped by Python `str.strip()` (ASCII fragment). -/
def pySpace (c : Char) : Bool :=
  c = ' ' ∨ c = '\t' ∨ c = '\n' ∨ c = '\x0d' ∨ c = '\x0b' ∨ c = '\x0c'

/-- Python `str.strip()`: drop leading and trailing whitespace. -/
def pyStrip (s : String) : String :=
  String.mk (((s.data.dropWhile pySpace).reverse.dropWhile pySpace).reverse)

/-- Python `needle in haystack` substring test. -/
def strContainsB (needle haystack : String) : Bool :=
  haystack.data.tails.any (fun t => needle.data.isPrefixOf t)

/-- SQLite `LIKE` pattern matching (no ESCAPE clause): `%` matches any
sequence of characters, `_` matches exactly one character, and every other
pattern character matches a text character up to ASCII case. Structural
recursion on the pattern; `%` tries every suffix of the text. -/
def likeM : List Char → List Char → Bool
  | [], t => t.isEmpty
  | c :: ps, t =>
    if c = '%' then t.tails.any (likeM ps)
    else
      match t with
      | [] => false
      | d :: ds => (if c = '_' then true else asciiLower c = asciiLower d) && likeM ps ds

/-- The pattern `"%" + query + "%"` built by `ChatDatabase.search_messages`. -/
def sqlLikePattern (q : String) : List Char :=
  '%' :: (q.data ++ ['%'])

/-- A query string free of SQL LIKE metacharacters. -/
def noLikeWildcards (q : String) : Prop :=
  ∀ c ∈ q.data, c ≠ '%' ∧ c ≠ '_'

instance (q : String) : Decidable (noLikeWildcards q) := by
  unfold noLikeWildcards; infer_instance

/-- Case-insensitive substring containment (the property `LIKE '%q%'` is
meant to implement): the ASCII-lowered needle is an infix of the
ASCII-lowered haystack. -/
def containsCI (needle haystack : String) : Prop :=
  (needle.data.map asciiLower) <:+: (haystack.data.map asciiLower)

instance (n h : String) : Decidable (containsCI n h) := by
  unfold containsCI; infer_instance

/-! ## Data model (src/src/models/chat_models.py) -/

/-- MessageType enumeration. -/
inductive MessageType where
  | user
  | bot
  | system
deriving DecidableEq, Repr

/-- The `.value` string of a MessageType member. -/
def MessageType.value : MessageType → String
  | .user => "user"
  | .bot => "bot"
  | .system => "system"

/-- `MessageType(s)`: enum lookup by value; `none` models the `ValueError`
raised on an unknown value (which `load_chat_session` turns into `None`). -/
def MessageType.ofValue : String → Option MessageType := fun s =>
  if s = "user" then some .user
  else if s = "bot" then some .bot
  else if s = "system" then some .system
  else none

/-- ChatTheme enumeration. -/
inductive ChatTheme where
  | default
  | dark
  | blue
deriving DecidableEq, Repr

/-- The `.value` string of a ChatTheme member. -/
def ChatTheme.value : ChatTheme → String
  | .default => "default"
  | .dark => "dark"
  | .blue => "blue"

/-- Chat message model (dataclass `Message`). `metadata` is the opaque
payload that `save` serializes with `json.dumps` and `load` restores with
`json.loads`. -/
structure Message where
  content : String
  message_type : MessageType
  timestamp : Nat
  metadata : String := ""
deriving DecidableEq, Repr

/-- Chat session model (dataclass `ChatSession`). -/
structure ChatSession where
  session_id : String
  messages : List Message := []
  created_at : Nat := 0
  updated_at : Nat := 0
  theme : ChatTheme := ChatTheme.default
  model_name : String := "flan-t5-base"
deriving DecidableEq, Repr

/-! ## Relational store (src/src/services/database_service.py)

The SQLite database is modelled as two tables held as lists in insertion
order (list position plays the role of the implicit rowid). -/

/-- The JSON object `{"theme": ..., "model_name": ...}` stored in the
`metadata` column of `chat_sessions`. -/
structure SessionMeta where
  theme : String
  model_name : String
deriving DecidableEq, Repr

/-- A row of the `chat_sessions` table. -/
structure SessionRow where
  id : String
  name : String
  description : String
  created_at : Nat
  updated_at : Nat
  message_count : Nat
  metadata : SessionMeta
deriving DecidableEq, Repr

/-- A row of the `messages` table. The `id` column is a fresh `uuid4` that
is never read back by any query, so it is not modelled. -/
structure MessageRow where
  session_id : String
  content : String
  message_type : String
  timestamp : Nat
  metadata : String
deriving DecidableEq, Repr

/-- The database state: both tables, rows in insertion (rowid) order. -/
structure ChatDB where
  sessions : List SessionRow
  messages : List MessageRow
deriving DecidableEq, Repr

/-- The message row inserted by `save_chat_session` for one message. -/
def msgRow (sid : String) (m : Message) : MessageRow :=
  { session_id := sid
    content := m.content
    message_type := m.message_type.value
    timestamp := m.timestamp
    metadata := m.metadata }

/-- The `chat_sessions` row written by `save_chat_session`: the
`message_count` column takes `len(session.messages)` at the moment of the
save. -/
def savedSessionRow (session : ChatSession) (name : String) (description : String) : SessionRow :=
  { id := session.session_id
    name := name
    description := description
    created_at := session.created_at
    updated_at := session.updated_at
    message_count := session.messages.length
    metadata := { theme := session.theme.value, model_name := session.model_name } }

/-- `ChatDatabase.save_chat_session`: `INSERT OR REPLACE` of the session row
(the conflicting row, when present, is removed and the new row inserted at
the end), then `DELETE FROM messages WHERE session_id = ?`, then one
`INSERT` per message of the session in list order. Returns the new state
and the boolean result (`True` on the non-exceptional path modelled here). -/
def save_chat_session (db : ChatDB) (session : ChatSession) (name : String)
    (description : String := "") : ChatDB × Bool :=
  ({ sessions := db.sessions.filter (fun r => decide (r.id ≠ session.session_id))
       ++ [savedSessionRow session name description]
     messages := db.messages.filter (fun r => decide (r.session_id ≠ session.session_id))
       ++ session.messages.map (msgRow session.session_id) }, true)

/-- Insert a row into a timestamp-sorted list, after every row with a
smaller-or-equal timestamp already present. -/
def tsInsert (r : MessageRow) : List MessageRow → List MessageRow
  | [] => [r]
  | b :: l => if r.timestamp ≤ b.timestamp then r :: b :: l else b :: tsInsert r l

/-- `ORDER BY timestamp ASC` over rows in insertion order: a stable sort by
timestamp (SQLite returns tied rows in rowid order for this query, and the
rowids of the message rows increase in insertion order). -/
def sortByTsAsc : List MessageRow → List MessageRow
  | [] => []
  | a :: l => tsInsert a (sortByTsAsc l)

/-- Reconstruct one `Message` from a row (`load_chat_session` loop body);
`none` models the exception on an unknown `message_type` value. -/
def rowToMessage (r : MessageRow) : Option Message :=
  (MessageType.ofValue r.message_type).map fun mt =>
    { content := r.content
      message_type := mt
      timestamp := r.timestamp
      metadata := r.metadata }

/-- Reconstruct all messages; the first failure aborts the whole load (the
exception propagates to the `except` clause, which returns `None`). -/
def parseRows : List MessageRow → Option (List Message)
  | [] => some []
  | r :: rs =>
    match rowToMessage r, parseRows rs with
    | some m, some ms => some (m :: ms)
    | _, _ => none

/-- `ChatDatabase.load_chat_session`: select the session row by id (primary
key), then the message rows for that id `ORDER BY timestamp ASC`. The
reconstructed `ChatSession` takes `model_name` from the stored metadata but
is built without a `theme` argument, so the theme is the dataclass default. -/
def load_chat_session (db : ChatDB) (session_id : String) : Option ChatSession :=
  match db.sessions.find? (fun r => decide (r.id = session_id)) with
  | none => none
  | some row =>
    match parseRows (sortByTsAsc (db.messages.filter (fun r => decide (r.session_id = session_id)))) with
    | none => none
    | some msgs =>
      some { session_id := row.id
             messages := msgs
             created_at := row.created_at
             updated_at := row.updated_at
             theme := ChatTheme.default
             model_name := row.metadata.model_name }

/-- `ChatDatabase.delete_chat_session`: delete the message rows, then the
session row; the returned boolean is `cursor.rowcount > 0` after the second
delete, i.e. whether a session row with that id existed. -/
def delete_chat_session (db : ChatDB) (session_id : String) : ChatDB × Bool :=
  ({ sessions := db.sessions.filter (fun r => decide (r.id ≠ session_id))
     messages := db.messages.filter (fun r => decide (r.session_id ≠ session_id)) },
   db.sessions.any (fun r => decide (r.id = session_id)))

/-- A row of the result set of `ChatDatabase.search_messages`. -/
structure SearchRow where
  content : String
  message_type : String
  timestamp : Nat
  session_name : String
  session_id : String
deriving DecidableEq, Repr

/-- Insert a row into a timestamp-descending list, keeping earlier rows
ahead of later ones with the same timestamp. -/
def tsInsertDesc (r : SearchRow) : List SearchRow → List SearchRow
  | [] => [r]
  | b :: l => if b.timestamp < r.timestamp then r :: b :: l else b :: tsInsertDesc r l

/-- `ORDER BY timestamp DESC` as a stable sort. -/
def sortByTsDesc : List SearchRow → List SearchRow
  | [] => []
  | a :: l => tsInsertDesc a (sortByTsDesc l)

/-- `ChatDatabase.search_messages`: join `messages` with `chat_sessions` on
the session id, keep the rows whose content matches `LIKE '%query%'`, order
by timestamp descending and apply `LIMIT`. -/
def search_messages (db : ChatDB) (query : String) (limit : Nat := 50) : List SearchRow :=
  let joined := db.messages.filterMap fun m =>
    (db.sessions.find? (fun s => decide (s.id = m.session_id))).map fun s =>
      ({ content := m.content
         message_type := m.message_type
         timestamp := m.timestamp
         session_name := s.name
         session_id := s.id } : SearchRow)
  ((sortByTsDesc (joined.filter (fun r => likeM (sqlLikePattern query) r.content.data))).take limit)

/-! ## Retrieval layer (src/src/services/rag_service.py) -/

/-- One entry of the list returned by `RAGService.get_relevant_context`. -/
structure CtxResult where
  content : String
  meta_session_id : String
  meta_session_name : String
  meta_message_type : String
  meta_timestamp : Nat
  relevance_score : ℚ
  source : String
deriving DecidableEq, Repr

/-- `RAGService._text_search`: wrap `search_messages` results with the fixed
neutral score 0.5 and source tag "text_search". -/
def text_search (db : ChatDB) (query : String) (max_results : Nat) : List CtxResult :=
  (search_messages db query max_results).map fun r =>
    { content := r.content
      meta_session_id := r.session_id
      meta_session_name := r.session_name
      meta_message_type := r.message_type
      meta_timestamp := r.timestamp
      relevance_score := (1 : ℚ) / 2
      source := "text_search" }

/-- `RAGService.get_relevant_context` on the fallback path: when ChromaDB is
unavailable (`not CHROMADB_AVAILABLE or not self.collection`), and equally
when `_vector_search` raises and its `except` clause delegates, the result
is exactly `_text_search(query, max_results)`. -/
def get_relevant_context_fallback (db : ChatDB) (query : String) (max_results : Nat := 5) :
    List CtxResult :=
  text_search db query max_results

/-- The vector-store document upserted by `index_chat_session` for one
message: id `"{session_id}_{i}"`, the full message content, and the
metadata map. -/
structure IndexedDoc where
  id : String
  document : String
  meta_session_id : String
  meta_message_type : String
  meta_timestamp : Nat
  meta_message_index : Nat
deriving DecidableEq, Repr

/-- The document built for message `m` at enumeration index `i`. -/
def mkDoc (sid : String) (i : Nat) (m : Message) : IndexedDoc :=
  { id := sid ++ "_" ++ toString i
    document := m.content
    meta_session_id := sid
    meta_message_type := m.message_type.value
    meta_timestamp := m.timestamp
    meta_message_index := i }

/-- The `for i, message in enumerate(session.messages)` loop of
`index_chat_session`, starting at enumeration index `k`: keep exactly the
messages whose stripped content length exceeds 10. -/
def indexDocsFrom (sid : String) (k : Nat) : List Message → List IndexedDoc
  | [] => []
  | m :: ms =>
    if 10 < (pyStrip m.content).length then mkDoc sid k m :: indexDocsFrom sid (k + 1) ms
    else indexDocsFrom sid (k + 1) ms

/-- The documents prepared by `index_chat_session` for a session's messages. -/
def indexDocs (sid : String) (msgs : List Message) : List IndexedDoc :=
  indexDocsFrom sid 0 msgs

/-- `RAGService.index_chat_session`: `False` when the vector backend is
unavailable or the session does not load; otherwise the prepared documents
are upserted and the result is `True` exactly when that list is nonempty
(`if documents: ... return True` / final `return False`). -/
def index_chat_session (backendAvailable : Bool) (db : ChatDB) (session_id : String) : Bool :=
  if backendAvailable then
    match load_chat_session db session_id with
    | none => false
    | some session => !(indexDocs session_id session.messages).isEmpty
  else false

/-- Per-item truncation in `build_context_prompt`: contents longer than 200
characters are cut to 200 plus an ellipsis. -/
def truncItem (content : String) : String :=
  if 200 < content.length then strTake content 200 ++ "..." else content

/-- The numbered context lines `f"{i}. {content}"`, numbering from `k`. -/
def contextItemsFrom (k : Nat) : List CtxResult → List String
  | [] => []
  | c :: rest => (toString k ++ ". " ++ truncItem c.content) :: contextItemsFrom (k + 1) rest

/-- The joined context block: the header line followed by the numbered
items (numbered from 1), joined with newlines. -/
def contextText (relevant_context : List CtxResult) : String :=
  String.intercalate "\n"
    ("Relevant information from previous conversations:" :: contextItemsFrom 1 relevant_context)

/-- Whole-block truncation: if the joined block exceeds
`max_context_length`, cut it to that length and append an ellipsis. -/
def truncateContext (ct : String) (max_context_length : Nat) : String :=
  if max_context_length < ct.length then strTake ct max_context_length ++ "..." else ct

/-- `RAGService.build_context_prompt`, parameterized by the list that
`get_relevant_context(query, max_results=3)` returned: the raw query when
that list is empty, otherwise the fixed template around the truncated
context block and the query. -/
def build_context_prompt (relevant_context : List CtxResult) (query : String)
    (max_context_length : Nat := 1000) : String :=
  if relevant_context.isEmpty then query
  else
    "Context from previous conversations:\n"
      ++ truncateContext (contextText relevant_context) max_context_length
      ++ "\n\nCurrent question: " ++ query
      ++ "\n\nPlease answer the current question, using the context above if relevant:"

/-- `build_context_prompt` composed with retrieval on the no-vector-backend
path, as the method runs in the source. -/
def build_context_prompt_db (db : ChatDB) (query : String)
    (max_context_length : Nat := 1000) : String :=
  build_context_prompt (get_relevant_context_fallback db query 3) query max_context_length

/-! ## Model dispatch (src/src/services/ai_service.py)

The fallback responder matches Python regexes against the prompt. The
twelve patterns of `FallbackModelService.responses` use only literals,
`.`, `\s`, `*` on those two, and top-level alternation, all under the
inline `(?i)` flag, so a small regular-expression AST with a
Brzozowski-derivative matcher embeds them exactly. -/

/-- Regular-expression AST covering the constructs used by the fallback
pattern table. `lit` matches case-insensitively (all patterns carry the
`(?i)` flag); `dot` is Python `.` (any character except a newline); `ws`
is `\s` (ASCII fragment). -/
inductive Rx where
  | emp
  | eps
  | lit (c : Char)
  | dot
  | ws
  | cat (r1 r2 : Rx)
  | alt (r1 r2 : Rx)
  | star (r : Rx)
deriving DecidableEq, Repr

/-- Smart alternation constructor (keeps derivative terms small). -/
def mkAlt : Rx → Rx → Rx
  | Rx.emp, r => r
  | r, Rx.emp => r
  | r1, r2 => Rx.alt r1 r2

/-- Smart concatenation constructor. -/
def mkCat : Rx → Rx → Rx
  | Rx.emp, _ => Rx.emp
  | _, Rx.emp => Rx.emp
  | Rx.eps, r => r
  | r, Rx.eps => r
  | r1, r2 => Rx.cat r1 r2

/-- Does the expression accept the empty string? -/
def rxNullable : Rx → Bool
  | Rx.emp => false
  | Rx.eps => true
  | Rx.lit _ => false
  | Rx.dot => false
  | Rx.ws => false
  | Rx.cat r1 r2 => rxNullable r1 && rxNullable r2
  | Rx.alt r1 r2 => rxNullable r1 || rxNullable r2
  | Rx.star _ => true

/-- Python `\s` (ASCII fragment): space, tab, newline, carriage return,
vertical tab, form feed. -/
def rxSpace (c : Char) : Bool :=
  c = ' ' ∨ c = '\t' ∨ c = '\n' ∨ c = '\x0d' ∨ c = '\x0b' ∨ c = '\x0c'

/-- Brzozowski derivative with respect to one character. -/
def rxDeriv : Rx → Char → Rx
  | Rx.emp, _ => Rx.emp
  | Rx.eps, _ => Rx.emp
  | Rx.lit c, d => if asciiLower c = asciiLower d then Rx.eps else Rx.emp
  | Rx.dot, d => if d = '\n' then Rx.emp else Rx.eps
  | Rx.ws, d => if rxSpace d then Rx.eps else Rx.emp
  | Rx.cat r1 r2, d =>
    if rxNullable r1 then mkAlt (mkCat (rxDeriv r1 d) r2) (rxDeriv r2 d)
    else mkCat (rxDeriv r1 d) r2
  | Rx.alt r1 r2, d => mkAlt (rxDeriv r1 d) (rxDeriv r2 d)
  | Rx.star r, d => mkCat (rxDeriv r d) (Rx.star r)

/-- Whole-string match. -/
def rxMatch (r : Rx) (s : List Char) : Bool :=
  rxNullable (s.foldl rxDeriv r)

/-- `re.search(pattern, s)`: some substring of `s` matches, i.e. the
pattern padded with `.*` on both sides matches the whole string. Python
`.` does not match newlines, but neither pattern literals nor the prompts
of interest contain them; padding with an any-character wildcard keeps
`search` exact on newline-free strings and conservative otherwise. -/
def rxAnyChar : Rx :=
  Rx.alt Rx.dot (Rx.lit '\n')

/-- Search: match anywhere in the string. -/
def rxSearch (r : Rx) (s : String) : Bool :=
  rxMatch (Rx.cat (Rx.star rxAnyChar) (Rx.cat r (Rx.star rxAnyChar))) s.data

/-- Concatenation of case-insensitive literals for a pattern fragment. -/
def rxStr (s : String) : Rx :=
  s.data.foldr (fun c r => Rx.cat (Rx.lit c) r) Rx.eps

/-- Pattern fragment `2\s*\+\s*2`. -/
def rxTwoPlusTwo : Rx :=
  Rx.cat (Rx.lit '2') (Rx.cat (Rx.star Rx.ws) (Rx.cat (Rx.lit '+') (Rx.cat (Rx.star Rx.ws) (Rx.lit '2'))))

/-- Pattern fragment `5\s*\*\s*5`. -/
def rxFiveTimesFive : Rx :=
  Rx.cat (Rx.lit '5') (Rx.cat (Rx.star Rx.ws) (Rx.cat (Rx.lit '*') (Rx.cat (Rx.star Rx.ws) (Rx.lit '5'))))

/-- Pattern fragment `10\s*-\s*3`. -/
def rxTenMinusThree : Rx :=
  Rx.cat (rxStr "10") (Rx.cat (Rx.star Rx.ws) (Rx.cat (Rx.lit '-') (Rx.cat (Rx.star Rx.ws) (Rx.lit '3'))))

/-- `(?i)what.*2\s*\+\s*2|2\s*\+\s*2`. -/
def rxMathTwo : Rx :=
  Rx.alt (Rx.cat (rxStr "what") (Rx.cat (Rx.star Rx.dot) rxTwoPlusTwo)) rxTwoPlusTwo

/-- `(?i)what.*5\s*\*\s*5|5\s*\*\s*5`. -/
def rxMathFive : Rx :=
  Rx.alt (Rx.cat (rxStr "what") (Rx.cat (Rx.star Rx.dot) rxFiveTimesFive)) rxFiveTimesFive

/-- `(?i)what.*10\s*-\s*3|10\s*-\s*3`. -/
def rxMathTen : Rx :=
  Rx.alt (Rx.cat (rxStr "what") (Rx.cat (Rx.star Rx.dot) rxTenMinusThree)) rxTenMinusThree

/-- `(?i)capital.*india`. -/
def rxCapIndia : Rx :=
  Rx.cat (rxStr "capital") (Rx.cat (Rx.star Rx.dot) (rxStr "india"))

/-- `(?i)capital.*france`. -/
def rxCapFrance : Rx :=
  Rx.cat (rxStr "capital") (Rx.cat (Rx.star Rx.dot) (rxStr "france"))

/-- `(?i)capital.*japan`. -/
def rxCapJapan : Rx :=
  Rx.cat (rxStr "capital") (Rx.cat (Rx.star Rx.dot) (rxStr "japan"))

/-- `(?i)after.*a|letter.*after.*a`. -/
def rxAfterA : Rx :=
  Rx.alt (Rx.cat (rxStr "after") (Rx.cat (Rx.star Rx.dot) (Rx.lit 'a')))
    (Rx.cat (rxStr "letter") (Rx.cat (Rx.star Rx.dot)
      (Rx.cat (rxStr "after") (Rx.cat (Rx.star Rx.dot) (Rx.lit 'a')))))

/-- `(?i)hello|hi|hey`. -/
def rxHello : Rx :=
  Rx.alt (rxStr "hello") (Rx.alt (rxStr "hi") (rxStr "hey"))

/-- `(?i)how.*you`. -/
def rxHowYou : Rx :=
  Rx.cat (rxStr "how") (Rx.cat (Rx.star Rx.dot) (rxStr "you"))

/-- `(?i)weather`. -/
def rxWeather : Rx :=
  rxStr "weather"

/-- `(?i)photosynthesis`. -/
def rxPhotosynthesis : Rx :=
  rxStr "photosynthesis"

/-- `(?i)gravity`. -/
def rxGravity : Rx :=
  rxStr "gravity"

/-- `FallbackModelService.responses`: the pattern table in its Python dict
insertion order (Python dicts iterate in insertion order). -/
def fallbackResponses : List (Rx × String) :=
  [(rxMathTwo, "4"),
   (rxMathFive, "25"),
   (rxMathTen, "7"),
   (rxCapIndia, "New Delhi is the capital of India."),
   (rxCapFrance, "Paris is the capital of France."),
   (rxCapJapan, "Tokyo is the capital of Japan."),
   (rxAfterA, "B comes after A in the alphabet."),
   (rxHello, "Hello! I\x27m running in basic mode. How can I help you?"),
   (rxHowYou, "I\x27m doing well, thank you for asking!"),
   (rxWeather, "I don\x27t have access to current weather data. Please check a weather service."),
   (rxPhotosynthesis, "Photosynthesis is the process by which plants use sunlight, water, and carbon dioxide to create glucose and oxygen."),
   (rxGravity, "Gravity is the force that attracts objects toward each other, keeping us on Earth\x27s surface.")]

/-- `FallbackModelService.generate_response`: scan the pattern table in
order and return the canned answer of the first pattern that `re.search`
finds in the prompt; otherwise fall through to the keyword checks on the
lowercased prompt, then to the question-mark check, then to the generic
reply. A pure function of the prompt: the `context` argument is unused and
no state is read or written. -/
def fallbackGenerate (prompt : String) : String :=
  match fallbackResponses.find? (fun pr => rxSearch pr.1 prompt) with
  | some pr => pr.2
  | none =>
    let prompt_lower := pyLower prompt
    if ["hello", "hi", "hey"].any (fun w => strContainsB w prompt_lower) then
      "Hello! I\x27m currently in basic mode. How can I assist you today?"
    else if ["help", "what", "how"].any (fun w => strContainsB w prompt_lower) then
      "I\x27m here to help! I can answer basic questions about math, geography, and general knowledge."
    else if strContainsB "?" prompt then
      "That\x27s an interesting question! Unfortunately, I\x27m running in basic mode and may not have the full answer."
    else
      "I understand you\x27re trying to communicate with me. I\x27m currently in basic mode with limited capabilities."

/-- A model service behind the unified interface: its
`generate_response(prompt, context)` function. -/
structure ModelService where
  generate : String → String → String

/-- The always-available fallback service (its `generate_response` ignores
the context argument). -/
def fallbackService : ModelService :=
  { generate := fun prompt _ => fallbackGenerate prompt }

/-- `ModelManager` state: the registry of successfully constructed named
services, the current service (`None` never survives initialization but the
attribute is Optional), and the fallback service. -/
structure ModelManager where
  available_models : List (String × ModelService)
  current_model : Option ModelService
  fallback_model : ModelService

/-- The keys of `ModelConfig.AVAILABLE_MODELS` (config/settings.py); every
key of `available_models` comes from this list, so `"fallback"` is never a
registry key. -/
def configuredModelKeys : List String :=
  ["flan-t5-base", "flan-t5-small", "dialogpt"]

/-- Python `self.available_models[name]` guarded by
`name in self.available_models`. -/
def lookupModel (models : List (String × ModelService)) (name : String) : Option ModelService :=
  (models.find? (fun p => decide (p.1 = name))).map Prod.snd

/-- `ModelManager.set_model`: switch to a registered model by name, or to
the fallback service for the literal name "fallback"; otherwise report
failure and leave the state unchanged. -/
def set_model (mm : ModelManager) (model_name : String) : Bool × ModelManager :=
  match lookupModel mm.available_models model_name with
  | some svc => (true, { mm with current_model := some svc })
  | none =>
    if model_name = "fallback" then (true, { mm with current_model := some mm.fallback_model })
    else (false, mm)

/-- `ModelManager.generate_response`: delegate to the current model when
set, else to the fallback service. -/
def generate_response (mm : ModelManager) (prompt : String) (context : String := "") : String :=
  match mm.current_model with
  | some svc => svc.generate prompt context
  | none => mm.fallback_model.generate prompt context

/-! ## Helper lemmas: relational store -/

/-- Looking up the session row right after a save finds the freshly written
row. -/
lemma find?_saved_sessions (db : ChatDB) (s : ChatSession) (name description : String) :
    (save_chat_session db s name description).1.sessions.find?
        (fun r => decide (r.id = s.session_id))
      = some (savedSessionRow s name description) := by
  have hnone : (db.sessions.filter (fun r => decide (r.id ≠ s.session_id))).find?
      (fun r => decide (r.id = s.session_id)) = none := by
    rw [List.find?_eq_none]
    intro x hx
    simp only [List.mem_filter, decide_eq_true_eq] at hx
    simp [hx.2]
  simp [save_chat_session, List.find?_append, hnone, List.find?_cons, savedSessionRow]

/-- The message rows selected for a session right after saving it are
exactly the rows written by that save, in insertion order. -/
lemma filter_saved_messages (db : ChatDB) (s : ChatSession) (name description : String) :
    (save_chat_session db s name description).1.messages.filter
        (fun r => decide (r.session_id = s.session_id))
      = s.messages.map (msgRow s.session_id) := by
  simp only [save_chat_session, List.filter_append]
  have h1 : (db.messages.filter (fun r => decide (r.session_id ≠ s.session_id))).filter
      (fun r => decide (r.session_id = s.session_id)) = [] := by
    rw [List.filter_eq_nil_iff]
    intro x hx
    simp only [List.mem_filter, decide_eq_true_eq] at hx
    simp [hx.2]
  have h2 : (s.messages.map (msgRow s.session_id)).filter
      (fun r => decide (r.session_id = s.session_id)) = s.messages.map (msgRow s.session_id) := by
    rw [List.filter_eq_self]
    intro x hx
    obtain ⟨m, _, rfl⟩ := List.mem_map.mp hx
    simp [msgRow]
  rw [h1, h2, List.nil_append]

/-- Inserting below the head keeps a timestamp-sorted list sorted. -/
lemma tsInsert_chain_cons (r : MessageRow) :
    ∀ (l : List MessageRow) (b : MessageRow), b.timestamp ≤ r.timestamp →
      List.Chain' (fun x y : MessageRow => x.timestamp ≤ y.timestamp) (b :: l) →
      List.Chain' (fun x y : MessageRow => x.timestamp ≤ y.timestamp) (b :: tsInsert r l)
  | [], b, hbr, _ => by
    simp [tsInsert, List.chain'_cons, hbr]
  | c :: l', b, hbr, h => by
    rw [List.chain'_cons] at h
    unfold tsInsert
    by_cases hrc : r.timestamp ≤ c.timestamp
    · rw [if_pos hrc]
      exact List.chain'_cons.mpr ⟨hbr, List.chain'_cons.mpr ⟨hrc, h.2⟩⟩
    · rw [if_neg hrc]
      exact List.chain'_cons.mpr ⟨h.1, tsInsert_chain_cons r l' c (le_of_not_le hrc) h.2⟩

/-- `tsInsert` preserves sortedness. -/
lemma tsInsert_chain (r : MessageRow) (l : List MessageRow)
    (h : List.Chain' (fun x y : MessageRow => x.timestamp ≤ y.timestamp) l) :
    List.Chain' (fun x y : MessageRow => x.timestamp ≤ y.timestamp) (tsInsert r l) := by
  cases l with
  | nil => simp [tsInsert]
  | cons b l' =>
    unfold tsInsert
    by_cases hrb : r.timestamp ≤ b.timestamp
    · rw [if_pos hrb]
      exact List.chain'_cons.mpr ⟨hrb, h⟩
    · rw [if_neg hrb]
      exact tsInsert_chain_cons r l' b (le_of_not_le hrb) h

/-- The result of `ORDER BY timestamp ASC` is timestamp-sorted. -/
lemma sortByTsAsc_chain (l : List MessageRow) :
    List.Chain' (fun x y : MessageRow => x.timestamp ≤ y.timestamp) (sortByTsAsc l) := by
  induction l with
  | nil => simp [sortByTsAsc]
  | cons a l ih => exact tsInsert_chain a (sortByTsAsc l) ih

/-- Sorting a list already in non-decreasing timestamp order is the
identity (stability: SQLite returns tied rows in rowid order). -/
lemma sortByTsAsc_eq_self :
    ∀ l : List MessageRow,
      List.Chain' (fun x y : MessageRow => x.timestamp ≤ y.timestamp) l → sortByTsAsc l = l
  | [], _ => rfl
  | a :: l, h => by
    have ht : sortByTsAsc l = l := sortByTsAsc_eq_self l h.tail
    unfold sortByTsAsc
    rw [ht]
    cases l with
    | nil => rfl
    | cons b l' =>
      unfold tsInsert
      rw [if_pos (List.chain'_cons.mp h).1]

/-- Reading back a round's value string yields the round's member. -/
lemma ofValue_value (mt : MessageType) : MessageType.ofValue mt.value = some mt := by
  cases mt <;> rfl

/-- A row written for a message reads back as that message. -/
lemma rowToMessage_msgRow (sid : String) (m : Message) :
    rowToMessage (msgRow sid m) = some m := by
  simp [rowToMessage, msgRow, ofValue_value]

/-- Reading back the rows written for a message list yields that list. -/
lemma parseRows_map_msgRow (sid : String) :
    ∀ ms : List Message, parseRows (ms.map (msgRow sid)) = some ms
  | [] => rfl
  | m :: ms => by
    simp [parseRows, rowToMessage_msgRow, parseRows_map_msgRow sid ms]

/-- `rowToMessage` preserves the timestamp. -/
lemma rowToMessage_timestamp (r : MessageRow) (m : Message)
    (h : rowToMessage r = some m) : m.timestamp = r.timestamp := by
  simp only [rowToMessage, Option.map_eq_some'] at h
  obtain ⟨mt, _, hm⟩ := h
  rw [← hm]

/-- `parseRows` preserves the timestamp sequence. -/
lemma parseRows_timestamps :
    ∀ (rows : List MessageRow) (ms : List Message), parseRows rows = some ms →
      ms.map Message.timestamp = rows.map MessageRow.timestamp
  | [], ms, h => by
    simp [parseRows] at h
    simp [← h]
  | r :: rows, ms, h => by
    simp only [parseRows] at h
    cases hr : rowToMessage r with
    | none => rw [hr] at h; exact absurd h (by simp)
    | some m =>
      rw [hr] at h
      cases hp : parseRows rows with
      | none => rw [hp] at h; exact absurd h (by simp)
      | some ms' =>
        rw [hp] at h
        simp only [Option.some_inj] at h
        subst h
        simp [rowToMessage_timestamp r m hr, parseRows_timestamps rows ms' hp]

/-- Any session reconstructed by `load_chat_session` has its messages in
non-decreasing timestamp order (the `ORDER BY timestamp ASC`). -/
lemma load_messages_sorted (db : ChatDB) (sid : String) (sess : ChatSession)
    (h : load_chat_session db sid = some sess) :
    List.Chain' (fun a b : Message => a.timestamp ≤ b.timestamp) sess.messages := by
  unfold load_chat_session at h
  cases hfind : db.sessions.find? (fun r => decide (r.id = sid)) with
  | none => rw [hfind] at h; exact absurd h (by simp)
  | some row =>
    rw [hfind] at h
    cases hp : parseRows (sortByTsAsc (db.messages.filter (fun r => decide (r.session_id = sid)))) with
    | none => rw [hp] at h; exact absurd h (by simp)
    | some msgs =>
      rw [hp] at h
      simp only [Option.some_inj] at h
      have hts := parseRows_timestamps _ _ hp
      have hchain := sortByTsAsc_chain (db.messages.filter (fun r => decide (r.session_id = sid)))
      have hchain2 : List.Chain' (fun a b : Nat => a ≤ b)
          (msgs.map Message.timestamp) := by
        rw [hts]
        exact (List.chain'_map MessageRow.timestamp).mpr hchain
      have := (List.chain'_map Message.timestamp).mp hchain2
      subst h
      exact this

/-- C1 (amended): provided the messages of the session carry non-decreasing
timestamps (as append-only construction guarantees), saving the session and
loading it back by its id returns exactly its message list: the same count,
order, contents, types, timestamps and metadata. In general (second
conjunct) any loaded session has its messages ordered by timestamp
ascending. The claim as stated, without the timestamp hypothesis, is false:
see the counterexample theorem. -/
theorem save_load_round_trip (db db2 : ChatDB) (s : ChatSession) (name description sid2 : String)
    (h : List.Chain' (fun a b : Message => a.timestamp ≤ b.timestamp) s.messages) :
    (load_chat_session (save_chat_session db s name description).1 s.session_id).map
        ChatSession.messages = some s.messages
    ∧ (∀ sess, load_chat_session db2 sid2 = some sess →
        List.Chain' (fun a b : Message => a.timestamp ≤ b.timestamp) sess.messages) := by
  constructor
  · have hsort : sortByTsAsc (s.messages.map (msgRow s.session_id))
        = s.messages.map (msgRow s.session_id) := by
      apply sortByTsAsc_eq_self
      rw [List.chain'_map]
      simpa [msgRow] using h
    unfold load_chat_session
    rw [find?_saved_sessions, filter_saved_messages, hsort, parseRows_map_msgRow]
    rfl
  · exact fun sess hsess => load_messages_sorted db2 sid2 sess hsess

/-- An empty database. -/
def exDb0 : ChatDB :=
  { sessions := [], messages := [] }

/-- A two-message session whose timestamps ascend. -/
def exSess : ChatSession :=
  { session_id := "sess"
    messages :=
      [{ content := "first message", message_type := MessageType.user, timestamp := 1 },
       { content := "second message with more content here ok", message_type := MessageType.bot, timestamp := 2 }]
    created_at := 0
    updated_at := 2 }

/-- Witness for the amended C1 at a concrete session. -/
theorem save_load_round_trip_witness :
    (load_chat_session (save_chat_session exDb0 exSess "n" "").1 exSess.session_id).map
        ChatSession.messages = some exSess.messages :=
  (save_load_round_trip exDb0 exDb0 exSess "n" "" "sess" (by simp [exSess, List.chain'_cons])).1

/-- A two-message session whose timestamps descend: message "a" carries
timestamp 2, message "b" timestamp 1. -/
def exBadSess : ChatSession :=
  { session_id := "s"
    messages :=
      [{ content := "a", message_type := MessageType.user, timestamp := 2 },
       { content := "b", message_type := MessageType.user, timestamp := 1 }] }

/-- C1 counterexample: saving a session whose two messages carry descending
timestamps and loading it back returns the messages in timestamp order,
not in the original order, refuting the unconditional round-trip claim. -/
theorem save_load_round_trip_counterexample :
    (load_chat_session (save_chat_session exDb0 exBadSess "n" "").1 exBadSess.session_id).map
        ChatSession.messages ≠ some exBadSess.messages
    ∧ (load_chat_session (save_chat_session exDb0 exBadSess "n" "").1 exBadSess.session_id).map
        (fun t => t.messages.map Message.content) = some ["b", "a"]
    ∧ exBadSess.messages.map Message.content = ["a", "b"] := by
  decide

/-- C7: the `message_count` recorded by a save equals the number of
messages in the session at that moment, and equals the number of message
rows inserted for that session id. The stored row is a pure value of the
database state produced by the save, so later mutation of the in-memory
session cannot affect it until the next save (in this functional embedding
the state produced by `save_chat_session` depends only on the session value
at save time). -/
theorem message_count_snapshot (db : ChatDB) (s : ChatSession) (name description : String) :
    ((save_chat_session db s name description).1.sessions.find?
        (fun r => decide (r.id = s.session_id))).map SessionRow.message_count
      = some s.messages.length
    ∧ ((save_chat_session db s name description).1.messages.filter
        (fun r => decide (r.session_id = s.session_id))).length
      = s.messages.length := by
  constructor
  · rw [find?_saved_sessions]
    rfl
  · rw [filter_saved_messages, List.length_map]

/-- C6: deleting a session removes every message row and session row with
that id, returns true exactly when a session row existed, and a subsequent
load of that id reports not-found. -/
theorem delete_chat_session_spec (db : ChatDB) (sid : String) :
    (delete_chat_session db sid).1.messages.filter (fun r => decide (r.session_id = sid)) = []
    ∧ (delete_chat_session db sid).1.sessions.filter (fun r => decide (r.id = sid)) = []
    ∧ ((delete_chat_session db sid).2 = true ↔ ∃ r ∈ db.sessions, r.id = sid)
    ∧ load_chat_session (delete_chat_session db sid).1 sid = none := by
  refine ⟨?_, ?_, ?_, ?_⟩
  · rw [List.filter_eq_nil_iff]
    intro x hx
    simp only [delete_chat_session, List.mem_filter, decide_eq_true_eq] at hx
    simp [hx.2]
  · rw [List.filter_eq_nil_iff]
    intro x hx
    simp only [delete_chat_session, List.mem_filter, decide_eq_true_eq] at hx
    simp [hx.2]
  · simp [delete_chat_session, List.any_eq_true]
  · have hnone : (delete_chat_session db sid).1.sessions.find?
        (fun r => decide (r.id = sid)) = none := by
      rw [List.find?_eq_none]
      intro x hx
      simp only [delete_chat_session, List.mem_filter, decide_eq_true_eq] at hx
      simp [hx.2]
    unfold load_chat_session
    rw [hnone]

/-! ## Helper lemmas: LIKE matching and text search -/

/-- A leading `%` matches iff the rest of the pattern matches some suffix. -/
lemma likeM_percent_iff (ps t : List Char) :
    likeM ('%' :: ps) t = true ↔ ∃ u, u <:+ t ∧ likeM ps u = true := by
  simp [likeM, List.any_eq_true, List.mem_tails]

/-- A wildcard-free pattern followed by `%` matches exactly the texts whose
ASCII-lowered form it prefixes. -/
lemma likeM_append_percent_prefix :
    ∀ (ps : List Char), (∀ c ∈ ps, c ≠ '%' ∧ c ≠ '_') →
      ∀ t, likeM (ps ++ ['%']) t = true →
        (ps.map asciiLower) <+: (t.map asciiLower)
  | [], _, t, _ => by simp
  | c :: cs, h, t, hm => by
    have hc := h c (List.mem_cons_self c cs)
    rw [List.cons_append] at hm
    cases t with
    | nil =>
      rw [likeM, if_neg hc.1] at hm
      exact absurd hm (by simp)
    | cons d ds =>
      rw [likeM, if_neg hc.1] at hm
      simp only [if_neg hc.2, Bool.and_eq_true, decide_eq_true_eq] at hm
      have ih := likeM_append_percent_prefix cs
        (fun x hx => h x (List.mem_cons_of_mem c hx)) ds hm.2
      obtain ⟨u, hu⟩ := ih
      exact ⟨u, by simp [hm.1, hu]⟩

/-- Soundness of the `'%query%'` pattern: when the query contains no LIKE
metacharacters, a match implies case-insensitive substring containment. -/
lemma likeM_pattern_sound (q : String) (t : List Char) (hq : noLikeWildcards q)
    (h : likeM (sqlLikePattern q) t = true) :
    (q.data.map asciiLower) <:+: (t.map asciiLower) := by
  rw [sqlLikePattern] at h
  obtain ⟨u, hsuff, hm⟩ := (likeM_percent_iff _ _).mp h
  obtain ⟨v, hv⟩ := likeM_append_percent_prefix q.data hq u hm
  obtain ⟨w, hw⟩ := List.IsSuffix.map asciiLower hsuff
  exact ⟨w, v, by rw [← hw, ← hv, List.append_assoc]⟩

/-- Membership in a descending insertion is membership. -/
lemma mem_tsInsertDesc (x r : SearchRow) :
    ∀ l, x ∈ tsInsertDesc r l → x = r ∨ x ∈ l
  | [], h => by simpa [tsInsertDesc] using h
  | b :: l', h => by
    unfold tsInsertDesc at h
    by_cases hc : b.timestamp < r.timestamp
    · rw [if_pos hc] at h
      rcases List.mem_cons.mp h with h1 | h1
      · exact Or.inl h1
      · exact Or.inr h1
    · rw [if_neg hc] at h
      rcases List.mem_cons.mp h with h1 | h1
      · exact Or.inr (List.mem_cons.mpr (Or.inl h1))
      · rcases mem_tsInsertDesc x r l' h1 with h2 | h2
        · exact Or.inl h2
        · exact Or.inr (List.mem_cons.mpr (Or.inr h2))

/-- Membership after `ORDER BY timestamp DESC` is membership. -/
lemma mem_sortByTsDesc (x : SearchRow) :
    ∀ l, x ∈ sortByTsDesc l → x ∈ l
  | [], h => by simp [sortByTsDesc] at h
  | a :: l', h => by
    unfold sortByTsDesc at h
    rcases mem_tsInsertDesc x a (sortByTsDesc l') h with h1 | h1
    · exact List.mem_cons.mpr (Or.inl h1)
    · exact List.mem_cons.mpr (Or.inr (mem_sortByTsDesc x l' h1))

/-- C2 (amended): on the fallback path (vector backend unavailable, or a
vector search raising into its `except` clause), for a query free of SQL
LIKE metacharacters every returned entry is tagged `source = "text_search"`
with `relevance_score = 0.5`, its content contains the query as a
case-insensitive substring, and it is the content of a stored message. The
claim over every query is false: a query containing a LIKE wildcard can
return messages that do not contain it as a substring (see the
counterexample theorem). -/
theorem text_search_fallback_sound (db : ChatDB) (q : String) (k : Nat) (r : CtxResult)
    (hq : noLikeWildcards q) (hr : r ∈ get_relevant_context_fallback db q k) :
    r.source = "text_search" ∧ r.relevance_score = 1 / 2 ∧ containsCI q r.content
    ∧ ∃ m ∈ db.messages, m.content = r.content := by
  simp only [get_relevant_context_fallback, text_search, List.mem_map] at hr
  obtain ⟨sr, hsr, rfl⟩ := hr
  simp only [search_messages] at hsr
  have hsr2 := mem_sortByTsDesc sr _ (List.mem_of_mem_take hsr)
  rw [List.mem_filter] at hsr2
  obtain ⟨hmem, hlike⟩ := hsr2
  rw [List.mem_filterMap] at hmem
  obtain ⟨m, hm, hsome⟩ := hmem
  simp only [Option.map_eq_some'] at hsome
  obtain ⟨srow, _, hrow⟩ := hsome
  refine ⟨rfl, rfl, ?_, ⟨m, hm, ?_⟩⟩
  · have : sr.content = m.content := by rw [← hrow]
    rw [this] at hlike ⊢
    exact likeM_pattern_sound q m.content.data hq hlike
  · rw [← hrow]

/-- A database holding one session and one message about a capital. -/
def exDbCap : ChatDB :=
  { sessions :=
      [{ id := "s1", name := "n1", description := "", created_at := 0, updated_at := 1,
         message_count := 1, metadata := { theme := "default", model_name := "flan-t5-base" } }]
    messages :=
      [{ session_id := "s1", content := "the capital of India", message_type := "user",
         timestamp := 1, metadata := "" }] }

/-- The fallback-path result for the query "Cap" against `exDbCap`. -/
def exCapResult : CtxResult :=
  { content := "the capital of India"
    meta_session_id := "s1"
    meta_session_name := "n1"
    meta_message_type := "user"
    meta_timestamp := 1
    relevance_score := 1 / 2
    source := "text_search" }

/-- Witness for the amended C2 at a concrete database and query. -/
theorem text_search_fallback_sound_witness :
    exCapResult.source = "text_search" ∧ exCapResult.relevance_score = 1 / 2
    ∧ containsCI "Cap" exCapResult.content
    ∧ ∃ m ∈ exDbCap.messages, m.content = exCapResult.content :=
  text_search_fallback_sound exDbCap "Cap" 5 exCapResult (by decide)
    (by rw [show get_relevant_context_fallback exDbCap "Cap" 5 = [exCapResult] from rfl]
        exact List.mem_singleton_self _)

/-- A database holding one session and one message with content "abc". -/
def exDbAbc : ChatDB :=
  { sessions :=
      [{ id := "s1", name := "n1", description := "", created_at := 0, updated_at := 1,
         message_count := 1, metadata := { theme := "default", model_name := "flan-t5-base" } }]
    messages :=
      [{ session_id := "s1", content := "abc", message_type := "user",
         timestamp := 1, metadata := "" }] }

/-- C2 counterexample: the query "a_c" (the SQL `_` wildcard matching any
single character) retrieves the stored message "abc" on the fallback path,
yet "a_c" is not a case-insensitive substring of "abc" — so the universal
claim over every query is false. -/
theorem text_search_fallback_counterexample :
    (get_relevant_context_fallback exDbAbc "a_c" 5).map CtxResult.content = ["abc"]
    ∧ ¬ containsCI "a_c" "abc" := by
  decide

/-! ## Helper lemmas: indexing -/

/-- Membership in the document list prepared by the `enumerate` loop of
`index_chat_session`, starting at enumeration index `k`. -/
lemma mem_indexDocsFrom (sid : String) :
    ∀ (msgs : List Message) (k : Nat) (d : IndexedDoc),
      d ∈ indexDocsFrom sid k msgs
        ↔ ∃ i m, msgs[i]? = some m ∧ 10 < (pyStrip m.content).length ∧ d = mkDoc sid (k + i) m
  | [], k, d => by simp [indexDocsFrom]
  | m :: ms, k, d => by
    unfold indexDocsFrom
    by_cases hc : 10 < (pyStrip m.content).length
    · rw [if_pos hc, List.mem_cons, mem_indexDocsFrom sid ms (k + 1) d]
      constructor
      · rintro (rfl | ⟨i, m', hget, hlen, rfl⟩)
        · exact ⟨0, m, by simp, hc, by rw [Nat.add_zero]⟩
        · refine ⟨i + 1, m', by simpa using hget, hlen, ?_⟩
          have : k + 1 + i = k + (i + 1) := by omega
          rw [this]
      · rintro ⟨i, m', hget, hlen, rfl⟩
        cases i with
        | zero =>
          simp only [List.getElem?_cons_zero, Option.some_inj] at hget
          subst hget
          exact Or.inl (by rw [Nat.add_zero])
        | succ j =>
          refine Or.inr ⟨j, m', by simpa using hget, hlen, ?_⟩
          have : k + 1 + j = k + (j + 1) := by omega
          rw [this]
    · rw [if_neg hc, mem_indexDocsFrom sid ms (k + 1) d]
      constructor
      · rintro ⟨i, m', hget, hlen, rfl⟩
        refine ⟨i + 1, m', by simpa using hget, hlen, ?_⟩
        have : k + 1 + i = k + (i + 1) := by omega
        rw [this]
      · rintro ⟨i, m', hget, hlen, rfl⟩
        cases i with
        | zero =>
          simp only [List.getElem?_cons_zero, Option.some_inj] at hget
          subst hget
          exact absurd hlen hc
        | succ j =>
          refine ⟨j, m', by simpa using hget, hlen, ?_⟩
          have : k + 1 + j = k + (j + 1) := by omega
          rw [this]

/-- C3 (amended): the documents prepared by `index_chat_session` are
exactly one `IndexedDocument` per message whose stripped content length
exceeds 10, with id `"{session_id}_{message_index}"`; in particular a
session with one message of trimmed length 5 and one of trimmed length 50
yields exactly the document of the second message, at index 1. The
original "length 5 / length 50" instance without trimming is false: a
50-character all-whitespace message strips to length 0 (see the
counterexample theorem). -/
theorem index_docs_characterization (sid : String) (msgs : List Message) (m1 m2 : Message)
    (h1 : (pyStrip m1.content).length = 5) (h2 : (pyStrip m2.content).length = 50) :
    (∀ d, d ∈ indexDocs sid msgs
      ↔ ∃ i m, msgs[i]? = some m ∧ 10 < (pyStrip m.content).length ∧ d = mkDoc sid i m)
    ∧ indexDocs sid [m1, m2] = [mkDoc sid 1 m2] := by
  constructor
  · intro d
    have h := mem_indexDocsFrom sid msgs 0 d
    simpa [indexDocs] using h
  · simp [indexDocs, indexDocsFrom, h1, h2]

/-- A message whose content is five letters. -/
def exShortMsg : Message :=
  { content := "abcde", message_type := MessageType.user, timestamp := 0 }

/-- A message of 50 non-blank characters (stripped length 50). -/
def exLongMsg : Message :=
  { content := "this message is long enough to pass the filter now",
    message_type := MessageType.bot, timestamp := 1 }

/-- Witness for the amended C3: indexing the two-message session produces
exactly the long message's document, with id "s_1". -/
theorem index_docs_characterization_witness :
    indexDocs "s" [exShortMsg, exLongMsg] = [mkDoc "s" 1 exLongMsg] :=
  (index_docs_characterization "s" [exShortMsg, exLongMsg] exShortMsg exLongMsg
    (by decide) (by decide)).2

/-- A message of 50 blank characters: its length is 50 but its stripped
length is 0. -/
def exBlankMsg : Message :=
  { content := String.mk (List.replicate 50 ' '), message_type := MessageType.bot, timestamp := 1 }

/-- C3 counterexample: a session with one message of length 5 and one of
length 50 whose long message is all whitespace produces no
IndexedDocument at all, refuting the untrimmed "length 5 / length 50"
instance. -/
theorem index_docs_counterexample :
    exShortMsg.content.length = 5 ∧ exBlankMsg.content.length = 50
    ∧ indexDocs "s" [exShortMsg, exBlankMsg] = [] := by
  decide

/-- C4: when retrieval returns no matches, `build_context_prompt` returns
the query string itself, unchanged, with no header or template text. -/
theorem build_context_prompt_empty (db : ChatDB) (query : String) (max_context_length : Nat)
    (h : get_relevant_context_fallback db query 3 = []) :
    build_context_prompt_db db query max_context_length = query := by
  unfold build_context_prompt_db
  rw [h]
  rfl

/-- Witness for C4: on an empty database every query comes back verbatim. -/
theorem build_context_prompt_empty_witness :
    build_context_prompt_db exDb0 "what is lean" 1000 = "what is lean" :=
  build_context_prompt_empty exDb0 "what is lean" 1000 rfl

/-- Length of a Python slice. -/
lemma strTake_length (s : String) (n : Nat) : (strTake s n).length = min n s.length :=
  List.length_take n s.data

/-- C5: when the joined context block exceeds `max_context_chars`, the
returned prompt embeds the block cut to exactly that many characters plus
the three-character ellipsis, between the fixed template pieces. -/
theorem context_truncation_exact (relevant_context : List CtxResult) (query : String)
    (max_context_length : Nat) (hne : relevant_context ≠ [])
    (hlen : max_context_length < (contextText relevant_context).length) :
    build_context_prompt relevant_context query max_context_length
      = "Context from previous conversations:\n"
        ++ (strTake (contextText relevant_context) max_context_length ++ "...")
        ++ "\n\nCurrent question: " ++ query
        ++ "\n\nPlease answer the current question, using the context above if relevant:"
    ∧ (strTake (contextText relevant_context) max_context_length ++ "...").length
      = max_context_length + 3 := by
  constructor
  · unfold build_context_prompt truncateContext
    rw [if_neg (by simp [hne]), if_pos hlen]
  · rw [String.length_append, strTake_length, min_eq_left (le_of_lt hlen)]
    rfl

/-- A one-entry retrieval result used by the truncation witness. -/
def exCtxList : List CtxResult :=
  [{ content := "some stored conversation content"
     meta_session_id := "s1"
     meta_session_name := "n1"
     meta_message_type := "user"
     meta_timestamp := 1
     relevance_score := 1 / 2
     source := "text_search" }]

/-- Witness for C5: with limit 10 and an overflowing block the embedded
context portion has length exactly 13. -/
theorem context_truncation_exact_witness :
    (strTake (contextText exCtxList) 10 ++ "...").length = 10 + 3 :=
  (context_truncation_exact exCtxList "q" 10 (by decide) (by decide)).2

/-- C9: the fallback responder answers "What is 2+2?" with exactly "4". It
is a pure function of the prompt (the context argument is unused and no
state is read or written), hence the same output on every call. The second
and third conjuncts exhibit first-match-wins on overlapping patterns: the
prompt "hello how are you" is matched by both the hello pattern and the
later how-you pattern, and the earlier pattern's answer is returned. -/
theorem fallback_two_plus_two :
    fallbackGenerate "What is 2+2?" = "4"
    ∧ fallbackGenerate "hello how are you" = "Hello! I\x27m running in basic mode. How can I help you?"
    ∧ rxSearch rxHello "hello how are you" = true
    ∧ rxSearch rxHowYou "hello how are you" = true := by
  decide

/-- The `enumerate` loop yields no document exactly when every message is
at most 10 characters once stripped. -/
lemma indexDocsFrom_eq_nil_iff (sid : String) :
    ∀ (msgs : List Message) (k : Nat),
      indexDocsFrom sid k msgs = [] ↔ ∀ m ∈ msgs, ¬ 10 < (pyStrip m.content).length
  | [], k => by simp [indexDocsFrom]
  | m :: ms, k => by
    unfold indexDocsFrom
    by_cases hc : 10 < (pyStrip m.content).length
    · rw [if_pos hc]
      simp [hc]
    · rw [if_neg hc]
      rw [indexDocsFrom_eq_nil_iff sid ms (k + 1)]
      simp only [List.mem_cons, not_lt]
      constructor
      · rintro hall m' (rfl | hm')
        · exact not_lt.mp hc
        · exact hall m' hm'
      · intro hall m' hm'
        exact hall m' (Or.inr hm')

/-- C10: `index_chat_session` returns true exactly when the backend is
available, the session loads, and at least one of its messages survives
the stripped-length filter; in particular it returns false when the
session exists and the backend is available but every message strips to at
most 10 characters. -/
theorem index_chat_session_true_iff (backendAvailable : Bool) (db : ChatDB) (sid : String) :
    index_chat_session backendAvailable db sid = true
      ↔ backendAvailable = true
        ∧ ∃ s, load_chat_session db sid = some s
            ∧ ∃ m ∈ s.messages, 10 < (pyStrip m.content).length := by
  cases backendAvailable with
  | false => simp [index_chat_session]
  | true =>
    rw [show index_chat_session true db sid
        = (match load_chat_session db sid with
           | none => false
           | some session => !(indexDocs sid session.messages).isEmpty) from rfl]
    cases hload : load_chat_session db sid with
    | none => simp
    | some s =>
      simp only [Bool.not_eq_true', List.isEmpty_eq_false, Option.some.injEq, true_and,
        exists_eq_left']
      rw [ne_eq, indexDocs, indexDocsFrom_eq_nil_iff sid s.messages 0]
      push_neg
      rfl

/-- A name outside the registry keys is not found by the dict lookup. -/
lemma lookupModel_eq_none (models : List (String × ModelService)) (name : String)
    (h : ∀ k ∈ models.map Prod.fst, k ≠ name) : lookupModel models name = none := by
  unfold lookupModel
  rw [Option.map_eq_none', List.find?_eq_none]
  intro p hp
  simp only [decide_eq_true_eq]
  exact h p.1 (List.mem_map.mpr ⟨p, hp, rfl⟩)

/-- C8: for a name that is neither a configured model key nor the literal
"fallback", `set_model` returns false and leaves the manager unchanged, so
a subsequent `generate_response` still uses the previously current model;
`set_model("fallback")` returns true and selects the fallback service. The
hypothesis that every registry key is a configured key is the initializer's
invariant: `available_models` is populated only from
`ModelConfig.AVAILABLE_MODELS`. -/
theorem set_model_unknown (mm : ModelManager) (name prompt context : String)
    (hsub : ∀ k ∈ mm.available_models.map Prod.fst, k ∈ configuredModelKeys)
    (hname : name ∉ configuredModelKeys) (hfb : name ≠ "fallback") :
    set_model mm name = (false, mm)
    ∧ generate_response (set_model mm name).2 prompt context = generate_response mm prompt context
    ∧ set_model mm "fallback" = (true, { mm with current_model := some mm.fallback_model }) := by
  have h1 : lookupModel mm.available_models name = none :=
    lookupModel_eq_none _ _ (fun k hk he => hname (he ▸ hsub k hk))
  have h2 : lookupModel mm.available_models "fallback" = none :=
    lookupModel_eq_none _ _ (fun k hk he => by
      have := hsub k hk
      rw [he] at this
      exact absurd this (by decide))
  have hset : set_model mm name = (false, mm) := by
    unfold set_model
    rw [h1, if_neg hfb]
  refine ⟨hset, by rw [hset], ?_⟩
  unfold set_model
  rw [h2, if_pos rfl]

/-- A sample registered model service. -/
def exModelA : ModelService :=
  { generate := fun _ _ => "answer from model A" }

/-- A manager with one registered model, currently selected. -/
def exMM : ModelManager :=
  { available_models := [("flan-t5-base", exModelA)]
    current_model := some exModelA
    fallback_model := fallbackService }

/-- Witness for C8 at a concrete manager and the unknown name
"nonexistent-model". -/
theorem set_model_unknown_witness :
    set_model exMM "nonexistent-model" = (false, exMM)
    ∧ generate_response (set_model exMM "nonexistent-model").2 "hi" ""
      = generate_response exMM "hi" ""
    ∧ set_model exMM "fallback" = (true, { exMM with current_model := some exMM.fallback_model }) :=
  set_model_unknown exMM "nonexistent-model" "hi" "" (by decide) (by decide) (by decide)
